import Mathlib

/-!
# Verification of the restaurant-customer client-side synchronization core

Shallow embedding of the client synchronization subsystem of the
`restaurant_customer` repository:

* the cart engine (`useCart.js`: `addToCart`, `updateQuantity`,
  `removeFromCart`, `validateCart`);
* the realtime reconcilers (the `useMenu` and `useOrders` subscription
  handlers folding insert/update/delete events into the in-memory mirrors);
* the offline order queue (`offline.js`: `offlineOrderQueue.syncPendingOrders`
  and `offlineOrderQueue.retryFailedOrders`);
* the service-worker cache strategy router (`sw.js`: the fetch listener,
  `cacheFirst`, `networkFirst`, `staleWhileRevalidate`).

JavaScript numbers are modelled as `Int` (quantities, prices) or `Nat`
(timestamps, ids where the source uses opaque keys); JS string equality is
Lean `String` equality.  Asynchronous functions are modelled as pure state
transformers; where an interleaving of two asynchronous invocations matters,
the interleaving is made explicit as its own definition.
-/

/-! ## Cart engine (src/hooks/useCart.js) -/

/-- A row of the menu as fetched from the backend (fields read by
`addToCart`). -/
structure MenuItemRec where
  id : Nat
  name : String
  price : Int
  category : String
  image_url : String
  preparation_time : Int
  is_available : Bool
deriving DecidableEq, Repr

/-- One cart line as produced by `addToCart` in `useCart.js`. -/
structure CartItem where
  id : Nat
  name : String
  price : Int
  category : String
  image_url : String
  preparation_time : Int
  quantity : Int
  specialInstructions : String
  cartId : String
deriving DecidableEq, Repr

/-- Model of `addToCart(menuItem, quantity, specialInstructions)` from `useCart.js`
(lines 32–61).  The JS body finds the first cart entry with the same
`(id, specialInstructions)` pair via `findIndex` and increments its quantity,
otherwise appends a fresh entry; the fresh `cartId` the JS generates from
`Date.now()` and `Math.random()` is passed in as `freshCartId`. -/
def addToCart (menuItem : MenuItemRec) (quantity : Int) (specialInstructions : String)
    (freshCartId : String) : List CartItem → List CartItem
  | [] =>
      [{ id := menuItem.id, name := menuItem.name, price := menuItem.price,
         category := menuItem.category, image_url := menuItem.image_url,
         preparation_time := menuItem.preparation_time, quantity := quantity,
         specialInstructions := specialInstructions, cartId := freshCartId }]
  | item :: rest =>
      if item.id = menuItem.id ∧ item.specialInstructions = specialInstructions then
        { item with quantity := item.quantity + quantity } :: rest
      else
        item :: addToCart menuItem quantity specialInstructions freshCartId rest

/-- Model of `removeFromCart(cartId)` from `useCart.js` (lines 80–82). -/
def removeFromCart (cartId : String) (cart : List CartItem) : List CartItem :=
  cart.filter (fun item => item.cartId ≠ cartId)

/-- Model of `updateQuantity(cartId, newQuantity)` from `useCart.js` (lines 64–77):
a non-positive quantity delegates to `removeFromCart`, otherwise the matching
line's quantity is overwritten in place. -/
def updateQuantity (cartId : String) (newQuantity : Int) (cart : List CartItem) :
    List CartItem :=
  if newQuantity ≤ 0 then
    removeFromCart cartId cart
  else
    cart.map (fun item =>
      if item.cartId = cartId then { item with quantity := newQuantity } else item)

/-- Whether a cart line belongs to the `(menuItemId, specialInstructions)`
pair, the JS `item.id === menuItem.id && item.specialInstructions ===
specialInstructions` match used by `addToCart`. -/
def matchesPair (mid : Nat) (instr : String) (item : CartItem) : Prop :=
  item.id = mid ∧ item.specialInstructions = instr

instance (mid : Nat) (instr : String) (item : CartItem) :
    Decidable (matchesPair mid instr item) := by
  unfold matchesPair; infer_instance

/-- Number of cart lines for one `(menuItemId, specialInstructions)` pair. -/
def linesFor (cart : List CartItem) (mid : Nat) (instr : String) : Nat :=
  (cart.filter (fun item => matchesPair mid instr item)).length

/-- Total quantity held by the lines for one pair. -/
def qtyFor (cart : List CartItem) (mid : Nat) (instr : String) : Int :=
  ((cart.filter (fun item => matchesPair mid instr item)).map (fun item => item.quantity)).sum

/-- A sequence of `addToCart` calls, all with the same instructions string;
each call supplies its menu item, quantity and fresh cart id. -/
def addSeq (instr : String) (calls : List (MenuItemRec × Int × String))
    (cart : List CartItem) : List CartItem :=
  calls.foldl (fun c call => addToCart call.1 call.2.1 instr call.2.2 c) cart

/-! ### Cart engine lemmas -/

theorem addToCart_linesFor (m : MenuItemRec) (q : Int) (instr f : String)
    (cart : List CartItem) (hm : m.id = mid) :
    linesFor (addToCart m q instr f cart) mid instr = max (linesFor cart mid instr) 1 := by
  induction cart with
  | nil =>
      subst hm
      simp [addToCart, linesFor, matchesPair]
  | cons item rest ih =>
      subst hm
      by_cases h : item.id = m.id ∧ item.specialInstructions = instr
      · simp only [addToCart, if_pos h, linesFor, List.filter_cons]
        have hmatch : matchesPair m.id instr item := ⟨h.1, h.2⟩
        simp [matchesPair, hmatch, h.1, h.2, Nat.max_eq_left, Nat.succ_le_succ]
      · simp only [addToCart, if_neg h, linesFor, List.filter_cons]
        by_cases hmatch : matchesPair m.id instr item
        · exact absurd ⟨hmatch.1, hmatch.2⟩ h
        · simp only [decide_eq_true_eq, if_neg hmatch]
          simpa [linesFor] using ih

theorem addToCart_qtyFor (m : MenuItemRec) (q : Int) (instr f : String)
    (cart : List CartItem) (hm : m.id = mid) :
    qtyFor (addToCart m q instr f cart) mid instr = qtyFor cart mid instr + q := by
  induction cart with
  | nil =>
      subst hm
      simp [addToCart, qtyFor, matchesPair]
  | cons item rest ih =>
      subst hm
      by_cases h : item.id = m.id ∧ item.specialInstructions = instr
      · have hmatch : matchesPair m.id instr item := ⟨h.1, h.2⟩
        simp only [addToCart, if_pos h, qtyFor, List.filter_cons]
        simp [matchesPair, h.1, h.2, qtyFor]
        ring
      · have hmatch : ¬ matchesPair m.id instr item := fun hc => h ⟨hc.1, hc.2⟩
        simp only [addToCart, if_neg h, qtyFor, List.filter_cons]
        simp only [decide_eq_true_eq, if_neg hmatch]
        simpa [qtyFor] using ih

theorem addToCart_other_pair (m : MenuItemRec) (q : Int) (instr instr2 f : String)
    (cart : List CartItem) (mid : Nat) (hne : m.id ≠ mid ∨ instr2 ≠ instr) :
    linesFor (addToCart m q instr2 f cart) mid instr = linesFor cart mid instr := by
  induction cart with
  | nil =>
      have : ¬ matchesPair mid instr
          { id := m.id, name := m.name, price := m.price, category := m.category,
            image_url := m.image_url, preparation_time := m.preparation_time,
            quantity := q, specialInstructions := instr2, cartId := f } := by
        rintro ⟨h1, h2⟩
        rcases hne with h | h
        · exact h h1
        · exact h h2
      simp [addToCart, linesFor, this]
  | cons item rest ih =>
      by_cases h : item.id = m.id ∧ item.specialInstructions = instr2
      · have hmatch : ¬ matchesPair mid instr ({ item with quantity := item.quantity + q }) := by
          rintro ⟨h1, h2⟩
          rcases hne with hk | hk
          · exact hk (h.1.symm.trans h1)
          · exact hk (h.2.symm.trans h2)
        have hmatch' : ¬ matchesPair mid instr item := by
          rintro ⟨h1, h2⟩
          exact hmatch ⟨h1, h2⟩
        simp [addToCart, if_pos h, linesFor, List.filter_cons, hmatch, hmatch']
      · simp only [addToCart, if_neg h, linesFor, List.filter_cons]
        by_cases hmatch : matchesPair mid instr item
        · simp only [decide_eq_true_eq, if_pos hmatch, List.length_cons]
          have := ih
          simp only [linesFor] at this
          omega
        · simp only [decide_eq_true_eq, if_neg hmatch]
          simpa [linesFor] using ih

theorem addSeq_linesFor (instr : String) (mid : Nat)
    (calls : List (MenuItemRec × Int × String)) (cart : List CartItem)
    (hcalls : ∀ c ∈ calls, (c.1).id = mid)
    (hcart : linesFor cart mid instr ≤ 1) :
    linesFor (addSeq instr calls cart) mid instr =
      (if calls = [] then linesFor cart mid instr else 1) ∧
    qtyFor (addSeq instr calls cart) mid instr =
      qtyFor cart mid instr + (calls.map (fun c => c.2.1)).sum := by
  induction calls generalizing cart with
  | nil => simp [addSeq]
  | cons c rest ih =>
      have hc : (c.1).id = mid := hcalls c (List.mem_cons_self c rest)
      have hrest : ∀ d ∈ rest, (d.1).id = mid := fun d hd => hcalls d (List.mem_cons_of_mem c hd)
      have hstep : linesFor (addToCart c.1 c.2.1 instr c.2.2 cart) mid instr =
          max (linesFor cart mid instr) 1 := addToCart_linesFor c.1 c.2.1 instr c.2.2 cart hc
      have hone : linesFor (addToCart c.1 c.2.1 instr c.2.2 cart) mid instr = 1 := by
        rw [hstep]
        omega
      have hq : qtyFor (addToCart c.1 c.2.1 instr c.2.2 cart) mid instr =
          qtyFor cart mid instr + c.2.1 := addToCart_qtyFor c.1 c.2.1 instr c.2.2 cart hc
      have := ih (addToCart c.1 c.2.1 instr c.2.2 cart) hrest (by omega)
      refine ⟨?_, ?_⟩
      · rcases this with ⟨h1, _⟩
        simp only [addSeq, List.foldl_cons] at h1 ⊢
        by_cases hr : rest = []
        · simp [hr, addSeq] at h1 ⊢
          simpa [hr] using hone
        · simpa [hr] using h1
      · rcases this with ⟨_, h2⟩
        simp only [addSeq, List.foldl_cons] at h2 ⊢
        rw [h2, hq]
        simp [List.map_cons, List.sum_cons]
        ring

/-! ### validateCart (useCart.js lines 157–185) -/

/-- Result shape of the availability-check capability
(`checkAvailabilityFn` in `useCart.js`). -/
structure AvailabilityResult where
  allAvailable : Bool
  unavailableItems : List Nat
deriving DecidableEq, Repr

/-- Observable outcome of a `validateCart` run: the returned value
(`valid`/`unavailableItems`), the cart after the run, and how many times the
supplied capability was invoked. -/
structure ValidateOutcome where
  valid : Bool
  unavailableItems : List CartItem
  newCart : List CartItem
  checkCalls : Nat
deriving DecidableEq, Repr

/-- The JS `[...new Set(xs)]` idiom: deduplication keeping first occurrences. -/
def jsSetDedup : List Nat → List Nat
  | [] => []
  | x :: xs => x :: (jsSetDedup xs).filter (fun y => y ≠ x)

/-- Model of `validateCart(checkAvailabilityFn)` from `useCart.js` (lines 157–185).
An empty cart returns `{valid: true, unavailableItems: []}` before the `try`
block, so the capability is not invoked; otherwise the capability is called
once on the deduplicated menu-item ids and unavailable lines are filtered
out of the cart.  A capability error (`Except.error`) is the JS `catch`
branch, returning `{valid: false, error}` and leaving the cart unchanged. -/
def validateCart (cart : List CartItem)
    (checkAvailabilityFn : List Nat → Except String AvailabilityResult) :
    ValidateOutcome :=
  if cart.length = 0 then
    { valid := true, unavailableItems := [], newCart := cart, checkCalls := 0 }
  else
    match checkAvailabilityFn (jsSetDedup (cart.map (fun item => item.id))) with
    | Except.error _ =>
        { valid := false, unavailableItems := [], newCart := cart, checkCalls := 1 }
    | Except.ok availability =>
        if availability.allAvailable = false then
          { valid := false,
            unavailableItems :=
              cart.filter (fun item => availability.unavailableItems.contains item.id),
            newCart :=
              cart.filter (fun item => ¬ availability.unavailableItems.contains item.id),
            checkCalls := 1 }
        else
          { valid := true, unavailableItems := [], newCart := cart, checkCalls := 1 }

/-! ### Claim theorems for the cart engine -/

/-- C4: starting from any cart holding at most one line for the pair
`(mid, instr)`, any nonempty sequence of `addToCart` calls that all use menu
item id `mid` and instructions `instr` leaves exactly one line for the pair,
whose quantity is the initial quantity (0 if the line was absent) plus the
sum of the added quantities; an `addToCart` with a different instructions
string never touches the `(mid, instr)` line and instead yields a line for
its own distinct pair. -/
theorem claim_C4_addToCart_accumulates
    (mid : Nat) (instr : String) (cart : List CartItem)
    (calls : List (MenuItemRec × Int × String))
    (hcart : linesFor cart mid instr ≤ 1)
    (hcalls : ∀ c ∈ calls, (c.1).id = mid)
    (hne : calls ≠ []) :
    linesFor (addSeq instr calls cart) mid instr = 1 ∧
    qtyFor (addSeq instr calls cart) mid instr =
      qtyFor cart mid instr + (calls.map (fun c => c.2.1)).sum ∧
    (∀ (m : MenuItemRec) (q : Int) (f instr2 : String), instr2 ≠ instr →
      linesFor (addToCart m q instr2 f cart) mid instr = linesFor cart mid instr) ∧
    (∀ (m : MenuItemRec) (q : Int) (f instr2 : String), m.id = mid →
      linesFor (addToCart m q instr2 f cart) mid instr2 =
        max (linesFor cart mid instr2) 1) := by
  obtain ⟨h1, h2⟩ := addSeq_linesFor instr mid calls cart hcalls hcart
  refine ⟨by simpa [hne] using h1, h2, ?_, ?_⟩
  · intro m q f instr2 hinstr
    exact addToCart_other_pair m q instr instr2 f cart mid (Or.inr hinstr)
  · intro m q f instr2 hm
    exact addToCart_linesFor m q instr2 f cart hm

/-- C9: `updateQuantity(cartId, 0)` produces exactly the cart that
`removeFromCart(cartId)` produces, and on a `cartId` matching no line both
operations (and `updateQuantity` with any quantity) return the cart
unchanged. -/
theorem claim_C9_setQuantity_zero_is_remove
    (cart : List CartItem) (cid : String) (n : Int) :
    updateQuantity cid 0 cart = removeFromCart cid cart ∧
    ((∀ item ∈ cart, item.cartId ≠ cid) →
      updateQuantity cid n cart = cart ∧ removeFromCart cid cart = cart) := by
  constructor
  · simp [updateQuantity]
  · intro h
    have hfilter : removeFromCart cid cart = cart := by
      unfold removeFromCart
      rw [List.filter_eq_self]
      intro a ha
      simpa using h a ha
    refine ⟨?_, hfilter⟩
    by_cases hn : n ≤ 0
    · simp [updateQuantity, hn, hfilter]
    · simp only [updateQuantity, if_neg hn]
      have hmap : ∀ a ∈ cart,
          (if a.cartId = cid then { a with quantity := n } else a) = a := by
        intro a ha
        rw [if_neg (h a ha)]
      rw [List.map_congr_left hmap]
      simp

/-- C10: `validateCart` on an empty cart returns
`{valid: true, unavailableItems: []}`, never invokes the availability
capability, and leaves the cart empty. -/
theorem claim_C10_validateCart_empty
    (checkAvailabilityFn : List Nat → Except String AvailabilityResult) :
    validateCart [] checkAvailabilityFn =
      { valid := true, unavailableItems := [], newCart := [], checkCalls := 0 } :=
  rfl

/-! ### Concrete sample data used by witnesses and counterexamples -/

/-- A concrete menu row. -/
def pizzaItem : MenuItemRec :=
  { id := 1, name := "Pizza", price := 12, category := "mains",
    image_url := "", preparation_time := 15, is_available := true }

/-- A concrete cart line unrelated to `pizzaItem`. -/
def saladLine : CartItem :=
  { id := 7, name := "Salad", price := 6, category := "starters",
    image_url := "", preparation_time := 5, quantity := 1,
    specialInstructions := "", cartId := "salad_1" }

/-- Witness for C4 at a concrete input: two `addToCart` calls for
`(id 1, "")` on the empty cart produce a single line of quantity 5, and
instructions `"no onions"` would form a separate pair. -/
theorem claim_C4_witness :
    linesFor (addSeq "" [(pizzaItem, 2, "f1"), (pizzaItem, 3, "f2")] []) 1 "" = 1 ∧
    qtyFor (addSeq "" [(pizzaItem, 2, "f1"), (pizzaItem, 3, "f2")] []) 1 "" = 0 + (2 + (3 + 0)) ∧
    linesFor (addToCart pizzaItem 1 "no onions" "f3" []) 1 "" = linesFor ([] : List CartItem) 1 "" ∧
    linesFor (addToCart pizzaItem 1 "no onions" "f3" []) 1 "no onions" =
      max (linesFor ([] : List CartItem) 1 "no onions") 1 := by
  have h := claim_C4_addToCart_accumulates 1 "" []
      [(pizzaItem, 2, "f1"), (pizzaItem, 3, "f2")]
      (by decide) (by decide) (by decide)
  exact ⟨h.1, h.2.1, h.2.2.1 pizzaItem 1 "f3" "no onions" (by decide),
    h.2.2.2 pizzaItem 1 "f3" "no onions" (by decide)⟩

/-- Witness for C9 at a concrete input: on a one-line cart whose line has
`cartId` `"salad_1"`, the id `"zzz"` matches nothing and both operations are
no-ops, while quantity 0 equals removal. -/
theorem claim_C9_witness :
    updateQuantity "zzz" 0 [saladLine] = removeFromCart "zzz" [saladLine] ∧
    updateQuantity "zzz" 5 [saladLine] = [saladLine] ∧
    removeFromCart "zzz" [saladLine] = [saladLine] := by
  have h := claim_C9_setQuantity_zero_is_remove [saladLine] "zzz" 5
  have h2 := h.2 (by decide)
  exact ⟨h.1, h2.1, h2.2⟩

/-! ## Realtime reconciler (useMenu and useOrders subscription handlers) -/

/-- An order row of the `orders` table as mirrored by `useOrders` (fields
the reconciler reads). -/
structure OrderRecord where
  id : String
  status : String
  total_amount : Int
  session_id : String
deriving DecidableEq, Repr

/-- A change event delivered to the `useMenu` subscription handler:
`payload.eventType` with `payload.new` (INSERT/UPDATE) or `payload.old`
(DELETE).  `OTHER` is the handler's `default` branch, which refetches the
whole collection. -/
inductive MenuEvent where
  | INSERT (newRec : MenuItemRec)
  | UPDATE (newRec : MenuItemRec)
  | DELETE (oldRec : MenuItemRec)
  | OTHER
deriving DecidableEq, Repr

/-- A change event delivered to the `useOrders` subscription handler. -/
inductive OrderEvent where
  | INSERT (newRec : OrderRecord)
  | UPDATE (newRec : OrderRecord)
  | DELETE (oldRec : OrderRecord)
  | OTHER
deriving DecidableEq, Repr

/-- The `useMenu` realtime handler (the `switch (payload.eventType)` at
`useMenu`'s subscription effect): INSERT appends `payload.new`
unconditionally (`[...prev, payload.new]`), UPDATE replaces the entry with
the matching id, DELETE filters it out, and the default branch replaces the
collection with the result of `refetchMenu()` (passed here as
`refetchResult`). -/
def applyMenuEvent (refetchResult : List MenuItemRec) (prev : List MenuItemRec) :
    MenuEvent → List MenuItemRec
  | MenuEvent.INSERT n => prev ++ [n]
  | MenuEvent.UPDATE n => prev.map (fun item => if item.id == n.id then n else item)
  | MenuEvent.DELETE old => prev.filter (fun item => item.id != old.id)
  | MenuEvent.OTHER => refetchResult

/-- The `useOrders` realtime handler (the `switch (payload.eventType)` in
`useOrders`'s subscription effect): INSERT prepends `payload.new` unless an
order with that id already exists (`prev.some(order => order.id ===
payload.new.id)`), UPDATE replaces by id, DELETE filters by id, and the
default branch refetches (`fetchOrders()`, passed as `refetchResult`). -/
def applyOrderEvent (refetchResult : List OrderRecord) (prev : List OrderRecord) :
    OrderEvent → List OrderRecord
  | OrderEvent.INSERT n =>
      if prev.any (fun order => order.id == n.id) then prev else n :: prev
  | OrderEvent.UPDATE n => prev.map (fun order => if order.id == n.id then n else order)
  | OrderEvent.DELETE old => prev.filter (fun order => order.id != old.id)
  | OrderEvent.OTHER => refetchResult

/-- C2 fails on the menu mirror: inserting the same record twice into the
empty menu mirror yields two copies, not one — the `useMenu` INSERT branch
appends without the duplicate check that the `useOrders` branch has. -/
theorem claim_C2_counterexample :
    applyMenuEvent [] (applyMenuEvent [] [] (MenuEvent.INSERT pizzaItem))
        (MenuEvent.INSERT pizzaItem) ≠
      applyMenuEvent [] [] (MenuEvent.INSERT pizzaItem) := by
  decide

/-- C2 amended: event application is idempotent for the orders mirror (all
event kinds, the duplicate-guarded INSERT included) and for the menu
mirror's UPDATE and DELETE; the menu mirror's INSERT is the exception — it
appends unconditionally, so a duplicated menu insert creates a second
entry. -/
theorem claim_C2_amended_idempotence :
    (∀ (rf prev : List OrderRecord) (e : OrderEvent),
        applyOrderEvent rf (applyOrderEvent rf prev e) e = applyOrderEvent rf prev e) ∧
    (∀ (rf prev : List MenuItemRec) (n : MenuItemRec),
        applyMenuEvent rf (applyMenuEvent rf prev (MenuEvent.UPDATE n))
            (MenuEvent.UPDATE n) =
          applyMenuEvent rf prev (MenuEvent.UPDATE n)) ∧
    (∀ (rf prev : List MenuItemRec) (o : MenuItemRec),
        applyMenuEvent rf (applyMenuEvent rf prev (MenuEvent.DELETE o))
            (MenuEvent.DELETE o) =
          applyMenuEvent rf prev (MenuEvent.DELETE o)) := by
  refine ⟨?_, ?_, ?_⟩
  · intro rf prev e
    cases e with
    | INSERT n =>
        simp only [applyOrderEvent]
        by_cases h : prev.any (fun order => order.id == n.id) = true
        · rw [if_pos h, if_pos h]
        · rw [if_neg h]
          have hcons : (n :: prev).any (fun order => order.id == n.id) = true := by
            simp [List.any_cons]
          rw [if_pos hcons]
    | UPDATE n =>
        simp only [applyOrderEvent, List.map_map]
        apply List.map_congr_left
        intro o _
        simp only [Function.comp_apply]
        by_cases h : (o.id == n.id) = true
        · simp [h]
        · simp [h]
    | DELETE old =>
        simp only [applyOrderEvent, List.filter_filter]
        simp
    | OTHER => simp [applyOrderEvent]
  · intro rf prev n
    simp only [applyMenuEvent, List.map_map]
    apply List.map_congr_left
    intro o _
    simp only [Function.comp_apply]
    by_cases h : (o.id == n.id) = true
    · simp [h]
    · simp [h]
  · intro rf prev o
    simp only [applyMenuEvent, List.filter_filter]
    simp

/-- C7 fails: an UPDATE for a record id absent from the mirror is a no-op —
the `map` replaces nothing — so no entity with that id is present
afterwards, contradicting treat-as-insert. -/
theorem claim_C7_counterexample :
    applyMenuEvent [] [] (MenuEvent.UPDATE pizzaItem) = [] ∧
    (applyMenuEvent [] [] (MenuEvent.UPDATE pizzaItem)).any
        (fun item => item.id == pizzaItem.id) = false := by
  decide

/-- C7 amended: an UPDATE event whose record id matches no entry leaves the
mirror (menu or orders) exactly unchanged: the event is dropped, not treated
as an insert. -/
theorem claim_C7_amended_update_absent_noop :
    (∀ (rf prev : List MenuItemRec) (n : MenuItemRec),
        (∀ o ∈ prev, o.id ≠ n.id) →
          applyMenuEvent rf prev (MenuEvent.UPDATE n) = prev) ∧
    (∀ (rf prev : List OrderRecord) (n : OrderRecord),
        (∀ o ∈ prev, o.id ≠ n.id) →
          applyOrderEvent rf prev (OrderEvent.UPDATE n) = prev) := by
  constructor
  · intro rf prev n h
    simp only [applyMenuEvent]
    have hmap : ∀ o ∈ prev, (if o.id == n.id then n else o) = o := by
      intro o ho
      have : (o.id == n.id) = false := by
        simpa using h o ho
      simp [this]
    rw [List.map_congr_left hmap]
    simp
  · intro rf prev n h
    simp only [applyOrderEvent]
    have hmap : ∀ o ∈ prev, (if o.id == n.id then n else o) = o := by
      intro o ho
      have : (o.id == n.id) = false := by
        simpa using h o ho
      simp [this]
    rw [List.map_congr_left hmap]
    simp

/-- A second concrete menu row, with an id distinct from `pizzaItem`. -/
def saladMenuRow : MenuItemRec :=
  { id := 7, name := "Salad", price := 6, category := "starters",
    image_url := "", preparation_time := 5, is_available := true }

/-- A concrete order row. -/
def orderRow1 : OrderRecord :=
  { id := "ord_1", status := "pending", total_amount := 24, session_id := "s1" }

/-- A concrete order row with a different id. -/
def orderRow2 : OrderRecord :=
  { id := "ord_2", status := "confirmed", total_amount := 12, session_id := "s1" }

/-- Witness for the amended C7 at a concrete input: updating id 1 in a menu
mirror holding only id 7 (and id "ord_1" in an orders mirror holding only
"ord_2") changes nothing. -/
theorem claim_C7_amended_witness :
    applyMenuEvent [] [saladMenuRow] (MenuEvent.UPDATE pizzaItem) = [saladMenuRow] ∧
    applyOrderEvent [] [orderRow2] (OrderEvent.UPDATE orderRow1) = [orderRow2] := by
  exact ⟨claim_C7_amended_update_absent_noop.1 [] [saladMenuRow] pizzaItem (by decide),
    claim_C7_amended_update_absent_noop.2 [] [orderRow2] orderRow1 (by decide)⟩

/-! ## Offline order queue (offline.js: offlineOrderQueue) -/

/-- A record of the `pending_orders` object store.  `addPendingOrder` creates
records with `status: 'pending_sync'`, `retry_count: 0` and no `last_retry`
field (`Option.none`); order-payload fields that the sync control flow never
reads are omitted. -/
structure PendingOrder where
  id : String
  retry_count : Nat
  last_retry : Option Nat
  status : String
deriving DecidableEq, Repr

/-- Record created by `offlineOrderQueue.addPendingOrder`, with the
IndexedDB key the JS generates from `Date.now()` and `Math.random()` passed
in as `freshId`. -/
def addPendingOrder (freshId : String) : PendingOrder :=
  { id := freshId, retry_count := 0, last_retry := none, status := "pending_sync" }

/-- Outcome of one `fetch('/api/orders', ...)` delivery attempt: `ok`
(`response.ok`), `serverError` (resolved but not ok), or `networkError`
(the fetch rejected, landing in the `catch` branch). -/
inductive SendResult where
  | ok
  | serverError
  | networkError
deriving DecidableEq, Repr

/-- IndexedDB `store.put` on a store keyed by `id`: replace the records
holding the key, or add the record if the key is absent. -/
def storePut (store : List PendingOrder) (x : PendingOrder) : List PendingOrder :=
  if store.any (fun o => o.id == x.id) then
    store.map (fun o => if o.id == x.id then x else o)
  else
    store ++ [x]

/-- One iteration of the `for (const order of pendingOrders)` loop in
`syncPendingOrders`: the POST is always issued; on `response.ok` the record
is deleted from the store, on a non-ok response the snapshot's record is
re-put with `retry_count + 1` and `last_retry: Date.now()`, and on a fetch
rejection the store is untouched (the `catch` branch only records the
failure). -/
def syncStep (net : String → SendResult) (now : Nat) (store : List PendingOrder)
    (order : PendingOrder) : List PendingOrder :=
  match net order.id with
  | SendResult.ok => store.filter (fun o => o.id != order.id)
  | SendResult.serverError =>
      storePut store { order with retry_count := order.retry_count + 1, last_retry := some now }
  | SendResult.networkError => store

/-- The body of `syncPendingOrders` run against a snapshot of the pending
list (the `getAll` result): returns the store after the loop and the list of
order ids for which a delivery attempt (a POST to `/api/orders`) was made —
one per snapshot entry, unconditionally. -/
def syncFromSnapshot (net : String → SendResult) (now : Nat) :
    List PendingOrder → List PendingOrder → List PendingOrder × List String
  | [], store => (store, [])
  | order :: rest, store =>
      let store' := syncStep net now store order
      let r := syncFromSnapshot net now rest store'
      (r.1, order.id :: r.2)

/-- Model of `offlineOrderQueue.syncPendingOrders` (offline.js lines 155–193): read
the whole `pending_orders` store and attempt delivery of every record in
it.  `net` gives each POST's outcome and `now` is `Date.now()`. -/
def syncPendingOrders (net : String → SendResult) (now : Nat)
    (store : List PendingOrder) : List PendingOrder × List String :=
  syncFromSnapshot net now store store

/-- The eligibility filter of `offlineOrderQueue.retryFailedOrders`
(offline.js lines 196–200): `retry_count < 3 && (!order.last_retry ||
Date.now() - order.last_retry > 30000)`.  A missing `last_retry` and the
JS-falsy timestamp `0` both pass the first disjunct; the subtraction is
truncated like the JS comparison (a negative difference is not `> 30000`). -/
def retryEligible (now : Nat) (o : PendingOrder) : Bool :=
  decide (o.retry_count < 3) &&
    (o.last_retry.getD 0 == 0 || decide (30000 < now - o.last_retry.getD 0))

/-- Model of `offlineOrderQueue.retryFailedOrders` (offline.js lines 195–207):
filter the pending store by `retryEligible`; if any order passes, call
`syncPendingOrders` — on the whole store — else do nothing and return `[]`. -/
def retryFailedOrders (net : String → SendResult) (now : Nat)
    (store : List PendingOrder) : List PendingOrder × List String :=
  let failedOrders := store.filter (retryEligible now)
  if failedOrders.length > 0 then syncPendingOrders net now store
  else (store, [])

/-- Two `syncPendingOrders` invocations interleaved as the JS event loop
admits: both calls `await` their `getPendingOrders()` read before either
performs a `fetch`, so both loop over the same snapshot; the schedule then
runs the first invocation's loop to completion, then the second's.  The
returned attempt list concatenates the two invocations' POSTs. -/
def syncPendingOrdersTwiceConcurrently (net : String → SendResult) (now : Nat)
    (store : List PendingOrder) : List PendingOrder × List String :=
  let snapshot := store
  let r1 := syncFromSnapshot net now snapshot store
  let r2 := syncFromSnapshot net now snapshot r1.1
  (r2.1, r1.2 ++ r2.2)

/-! ### Queue lemmas -/

/-- Every snapshot entry is POSTed, whatever the store holds: the loop never
re-checks the store before sending. -/
theorem syncFromSnapshot_sends_all (net : String → SendResult) (now : Nat)
    (snapshot store : List PendingOrder) :
    (syncFromSnapshot net now snapshot store).2 = snapshot.map (fun o => o.id) := by
  induction snapshot generalizing store with
  | nil => rfl
  | cons order rest ih => simp [syncFromSnapshot, ih]

theorem storePut_id_mem (store : List PendingOrder) (x : PendingOrder) (oid : String)
    (hne : x.id ≠ oid) :
    (oid ∈ (storePut store x).map (fun o => o.id)) ↔ oid ∈ store.map (fun o => o.id) := by
  unfold storePut
  by_cases h : store.any (fun o => o.id == x.id) = true
  · rw [if_pos h]
    simp only [List.map_map, List.mem_map, Function.comp_apply]
    constructor
    · rintro ⟨o, ho, hoid⟩
      by_cases hx : (o.id == x.id) = true
      · rw [if_pos hx] at hoid
        exact absurd hoid hne
      · rw [if_neg hx] at hoid
        exact ⟨o, ho, hoid⟩
    · rintro ⟨o, ho, hoid⟩
      refine ⟨o, ho, ?_⟩
      have hx : (o.id == x.id) = false := by
        rw [beq_eq_false_iff_ne]
        intro hox
        exact hne (hox ▸ hoid)
      rw [if_neg (by simp [hx])]
      exact hoid
  · rw [if_neg h]
    simp only [List.map_append, List.map_cons, List.map_nil, List.mem_append,
      List.mem_singleton]
    constructor
    · rintro (hm | hx)
      · exact hm
      · exact absurd hx.symm hne
    · exact fun hm => Or.inl hm

/-- After the loop, no record with a delivered id survives, provided every
store record with that id was in the snapshot (true when the snapshot is the
store itself). -/
theorem syncFromSnapshot_delivered_gone (net : String → SendResult) (now : Nat)
    (oid : String) (hok : net oid = SendResult.ok) :
    ∀ (snapshot store : List PendingOrder),
      (oid ∈ store.map (fun o => o.id) → oid ∈ snapshot.map (fun o => o.id)) →
      oid ∉ (syncFromSnapshot net now snapshot store).1.map (fun o => o.id) := by
  intro snapshot
  induction snapshot with
  | nil =>
      intro store hsub hmem
      exact absurd (hsub hmem) (by simp)
  | cons order rest ih =>
      intro store hsub
      simp only [syncFromSnapshot]
      by_cases hord : order.id = oid
      · have hstep : syncStep net now store order =
            store.filter (fun o => o.id != order.id) := by
          unfold syncStep
          rw [hord, hok]
        apply ih
        intro hmem
        rw [hstep] at hmem
        simp only [List.mem_map, List.mem_filter] at hmem
        obtain ⟨o, ⟨_, hne⟩, hoid⟩ := hmem
        rw [hord] at hne
        simp only [bne_iff_ne, ne_eq] at hne
        exact absurd hoid hne
      · apply ih
        intro hmem
        have hmem' : oid ∈ store.map (fun o => o.id) := by
          cases hnet : net order.id with
          | ok =>
              simp only [syncStep, hnet] at hmem
              simp only [List.mem_map, List.mem_filter] at hmem
              obtain ⟨o, ⟨ho, _⟩, hoid⟩ := hmem
              exact List.mem_map.mpr ⟨o, ho, hoid⟩
          | serverError =>
              simp only [syncStep, hnet] at hmem
              exact (storePut_id_mem store
                { order with retry_count := order.retry_count + 1,
                             last_retry := some now } oid hord).mp hmem
          | networkError =>
              simpa only [syncStep, hnet] using hmem
        have := hsub hmem'
        simp only [List.map_cons, List.mem_cons] at this
        rcases this with heq | hmem2
        · exact absurd heq.symm hord
        · exact hmem2

/-! ### Queue claim theorems -/

/-- A pending order whose retry budget is exhausted (`retry_count = 3`). -/
def maxedOrder : PendingOrder :=
  { id := "A", retry_count := 3, last_retry := some 0, status := "pending_sync" }

/-- A never-attempted pending order. -/
def freshOrder : PendingOrder :=
  { id := "B", retry_count := 0, last_retry := none, status := "pending_sync" }

/-- A pending order one failed attempt in, last attempted at t = 1000. -/
def retriedOrder : PendingOrder :=
  { id := "A", retry_count := 1, last_retry := some 1000, status := "pending_sync" }

/-- A backend that replies non-ok to every POST. -/
def allServerError : String → SendResult := fun _ => SendResult.serverError

/-- A backend that accepts every POST. -/
def alwaysOk : String → SendResult := fun _ => SendResult.ok

/-- C1 fails on the code: with the store holding an order at the maximum
`retry_count = 3` next to one eligible order, `retryFailedOrders` computes
its eligibility filter but then drains the *whole* store, so the maxed-out
order is POSTed again ("A" is in the attempt list); and no terminal failed
state exists — after the run every record still has status
`"pending_sync"`. -/
theorem claim_C1_maxed_order_still_attempted :
    maxedOrder.retry_count = 3 ∧
    (retryFailedOrders allServerError 100000 [maxedOrder, freshOrder]).2 = ["A", "B"] ∧
    (retryFailedOrders allServerError 100000 [maxedOrder, freshOrder]).1.all
        (fun o => o.status == "pending_sync") = true := by
  decide

/-- C3 fails on the code: two concurrent `syncPendingOrders` invocations
that both snapshot the pending list before either POSTs (an interleaving the
`await`ed IndexedDB reads permit) each deliver the single queued order "X" —
the first succeeds and deletes it, the second still POSTs it again, so the
attempt list holds "X" twice. -/
theorem claim_C3_counterexample :
    alwaysOk "X" = SendResult.ok ∧
    syncPendingOrdersTwiceConcurrently alwaysOk 0
        [{ id := "X", retry_count := 0, last_retry := none, status := "pending_sync" }] =
      ([], ["X", "X"]) := by
  decide

/-- C3 amended: only *sequential* drains cannot re-send: once a drain's POST
for an order id is accepted, the order is deleted, so a later
`syncPendingOrders` run makes no delivery attempt for that id.  (The code
has no per-order in-flight guard; concurrent drains may double-send, with
deduplication left to the `offline_id` the request body carries.) -/
theorem claim_C3_amended_sequential_no_resend
    (net : String → SendResult) (now1 now2 : Nat) (store : List PendingOrder)
    (oid : String) (hok : net oid = SendResult.ok) :
    oid ∉ (syncPendingOrders net now2 ((syncPendingOrders net now1 store).1)).2 := by
  rw [syncPendingOrders, syncFromSnapshot_sends_all]
  exact syncFromSnapshot_delivered_gone net now1 oid hok store store (fun h => h)

/-- Witness for the amended C3 at a concrete input: after a drain of the
one-order store succeeds, a second sequential drain POSTs nothing for
"X". -/
theorem claim_C3_amended_witness :
    "X" ∉ (syncPendingOrders alwaysOk 50 ((syncPendingOrders alwaysOk 0
      [{ id := "X", retry_count := 0, last_retry := none,
         status := "pending_sync" }]).1)).2 :=
  claim_C3_amended_sequential_no_resend alwaysOk 0 50
    [{ id := "X", retry_count := 0, last_retry := none, status := "pending_sync" }]
    "X" rfl

/-- C8 fails on the code: the inter-retry delay is a fixed 30 seconds, not
`base × 2^retryCount`.  The order with `retry_count = 1` last attempted at
t = 1000 is POSTed again at t = 32000 — 31 s later — although the claimed
exponential minimum delay (30 s × 2¹ = 60 s) has not elapsed. -/
theorem claim_C8_counterexample :
    retriedOrder.retry_count = 1 ∧
    (retryFailedOrders allServerError 32000 [retriedOrder]).2 = ["A"] ∧
    32000 - 1000 < 30000 * 2 ^ retriedOrder.retry_count := by
  decide

/-- C8 amended: `retryFailedOrders` gates on a *fixed* 30-second inter-retry
delay (`retry_count < 3 && (!last_retry || now - last_retry > 30000)`); if
no order passes the gate nothing is attempted, but if *any* order passes it
the function drains the whole store, POSTing every pending order — also the
ones inside their delay window or beyond the retry budget. -/
theorem claim_C8_amended_fixed_delay_all_or_nothing
    (net : String → SendResult) (now : Nat) (store : List PendingOrder) :
    (store.filter (retryEligible now) = [] →
      retryFailedOrders net now store = (store, [])) ∧
    (store.filter (retryEligible now) ≠ [] →
      (retryFailedOrders net now store).2 = store.map (fun o => o.id)) := by
  constructor
  · intro h
    simp [retryFailedOrders, h]
  · intro h
    have hlen : 0 < (store.filter (retryEligible now)).length :=
      List.length_pos.mpr h
    simp only [retryFailedOrders, gt_iff_lt, if_pos hlen]
    exact syncFromSnapshot_sends_all net now store store

/-- Witness for the amended C8 at concrete inputs: a store holding only the
maxed-out order is left untouched with no attempts, while a store holding
the one-retry order 31 s after its last attempt is drained in full. -/
theorem claim_C8_amended_witness :
    retryFailedOrders allServerError 100000 [maxedOrder] = ([maxedOrder], []) ∧
    (retryFailedOrders allServerError 32000 [retriedOrder]).2 = ["A"] := by
  have h1 := (claim_C8_amended_fixed_delay_all_or_nothing allServerError 100000
    [maxedOrder]).1 (by decide)
  have h2 := (claim_C8_amended_fixed_delay_all_or_nothing allServerError 32000
    [retriedOrder]).2 (by decide)
  exact ⟨h1, by rw [h2]; decide⟩

/-! ## Cache strategy router (sw.js) -/

/-- A response as the router observes it: body text and HTTP status.
`ok` is the `Response.ok` accessor (status in the 2xx range). -/
structure SWResponse where
  body : String
  status : Nat
deriving DecidableEq, Repr

/-- The `response.ok` accessor. -/
def SWResponse.ok (r : SWResponse) : Bool :=
  decide (200 ≤ r.status) && decide (r.status < 300)

/-- Synthetic 503 response with body `Offline` from the catch branch of `cacheFirst`. -/
def offlineResp : SWResponse := { body := "Offline", status := 503 }

/-- Synthetic 503 response with body `Network error` from `networkFirst`. -/
def networkErrorResp : SWResponse := { body := "Network error", status := 503 }

/-- One named cache: GET responses keyed by request path. -/
abbrev SWCache := List (String × SWResponse)

/-- Lookup `cache.match(request)` on one named cache. -/
def cacheMatch (c : SWCache) (path : String) : Option SWResponse :=
  (c.find? (fun e => e.1 == path)).map (fun e => e.2)

/-- Update `cache.put(request, response)`: overwrite the entry for the key. -/
def cachePut (c : SWCache) (path : String) (r : SWResponse) : SWCache :=
  (path, r) :: c.filter (fun e => e.1 != path)

/-- The two named caches the service worker opens:
`restaurant-static-v1` and `restaurant-dynamic-v1`. -/
structure CacheState where
  staticCache : SWCache
  dynamicCache : SWCache
deriving DecidableEq, Repr

/-- Lookup `caches.match(request)`: search every named cache. -/
def cachesMatch (cs : CacheState) (path : String) : Option SWResponse :=
  match cacheMatch cs.staticCache path with
  | some r => some r
  | none => cacheMatch cs.dynamicCache path

/-- The one `fetch(request)` a strategy performs: the promise resolves with
a response (any status) or rejects (offline / network error). -/
inductive NetworkResult where
  | resolved (resp : SWResponse)
  | rejected
deriving DecidableEq, Repr

/-- An incoming request as the fetch listener inspects it: method, pathname,
whether `url.origin === location.origin`, and whether
`request.mode === 'navigate'`. -/
structure SWRequest where
  method : String
  path : String
  sameOrigin : Bool
  navigate : Bool
deriving DecidableEq, Repr

/-- What the fetch event ultimately delivers to the page: a response, a
promise that resolved with no response (`undefined`), a propagated
rejection, or no interception at all (the listener returned early). -/
inductive SWOutcome where
  | response (r : SWResponse)
  | noResponse
  | rejected
  | notIntercepted
deriving DecidableEq, Repr

/-- The `NETWORK_FIRST_URLS` routing table from sw.js. -/
def NETWORK_FIRST_URLS : List String := ["/api/", "/menu", "/orders"]

/-- Model of `isStaticAsset(pathname)` from sw.js (lines 170–179). -/
def isStaticAsset (pathname : String) : Bool :=
  pathname.startsWith "/static/" ||
  pathname.endsWith ".js" ||
  pathname.endsWith ".css" ||
  pathname.endsWith ".png" ||
  pathname.endsWith ".jpg" ||
  pathname.endsWith ".jpeg" ||
  pathname.endsWith ".svg" ||
  pathname.endsWith ".ico"

/-- Model of `cacheFirst(request)` (sw.js lines 102–120): serve any cached copy;
else fetch, store 2xx responses in the static cache, and return the network
response; a fetch rejection is caught and answered with the synthetic
`Offline` 503. -/
def cacheFirst (req : SWRequest) (cs : CacheState) (net : NetworkResult) :
    CacheState × SWOutcome :=
  match cachesMatch cs req.path with
  | some r => (cs, SWOutcome.response r)
  | none =>
      match net with
      | NetworkResult.resolved resp =>
          ((if resp.ok then
              { cs with staticCache := cachePut cs.staticCache req.path resp }
            else cs),
           SWOutcome.response resp)
      | NetworkResult.rejected => (cs, SWOutcome.response offlineResp)

/-- Model of `networkFirst(request)` (sw.js lines 123–149): return the network
response (storing it in the dynamic cache when 2xx); on rejection fall back
to any cached copy; failing that, a navigation request returns the result of
`caches.match('/offline.html') || new Response('Offline', {status: 503})` —
the `caches.match` call returns a (truthy) promise, so the `||` fallback is
dead code and a missing `/offline.html` resolves with no response — and a
non-navigation request returns the synthetic `Network error` 503. -/
def networkFirst (req : SWRequest) (cs : CacheState) (net : NetworkResult) :
    CacheState × SWOutcome :=
  match net with
  | NetworkResult.resolved resp =>
      ((if resp.ok then
          { cs with dynamicCache := cachePut cs.dynamicCache req.path resp }
        else cs),
       SWOutcome.response resp)
  | NetworkResult.rejected =>
      match cachesMatch cs req.path with
      | some r => (cs, SWOutcome.response r)
      | none =>
          if req.navigate then
            match cachesMatch cs "/offline.html" with
            | some r => (cs, SWOutcome.response r)
            | none => (cs, SWOutcome.noResponse)
          else (cs, SWOutcome.response networkErrorResp)

/-- Model of `staleWhileRevalidate(request)` (sw.js lines 152–167): return the
dynamic-cache copy at once if present (the refresh still updates the cache
on a 2xx network response); on a cache miss wait on the network, whose
rejection is caught by returning the — here absent — cached copy, i.e. the
promise resolves with no response. -/
def staleWhileRevalidate (req : SWRequest) (cs : CacheState) (net : NetworkResult) :
    CacheState × SWOutcome :=
  match cacheMatch cs.dynamicCache req.path with
  | some r =>
      ((match net with
        | NetworkResult.resolved resp =>
            if resp.ok then
              { cs with dynamicCache := cachePut cs.dynamicCache req.path resp }
            else cs
        | NetworkResult.rejected => cs),
       SWOutcome.response r)
  | none =>
      match net with
      | NetworkResult.resolved resp =>
          ((if resp.ok then
              { cs with dynamicCache := cachePut cs.dynamicCache req.path resp }
            else cs),
           SWOutcome.response resp)
      | NetworkResult.rejected => (cs, SWOutcome.noResponse)

/-- Model of `handleGetRequest(request)` (sw.js lines 84–99): route by the static
tables. -/
def handleGetRequest (req : SWRequest) (cs : CacheState) (net : NetworkResult) :
    CacheState × SWOutcome :=
  if NETWORK_FIRST_URLS.any (fun pattern => req.path.startsWith pattern) then
    networkFirst req cs net
  else if isStaticAsset req.path then
    cacheFirst req cs net
  else
    staleWhileRevalidate req cs net

/-- The `fetch` event listener (sw.js lines 65–81): cross-origin requests
are not intercepted; GET requests go through `handleGetRequest`; any other
method is answered with `event.respondWith(fetch(request))`, whose rejection
propagates to the page. -/
def handleFetchEvent (req : SWRequest) (cs : CacheState) (net : NetworkResult) :
    CacheState × SWOutcome :=
  if req.sameOrigin = false then
    (cs, SWOutcome.notIntercepted)
  else if req.method == "GET" then
    handleGetRequest req cs net
  else
    (cs,
     match net with
     | NetworkResult.resolved resp => SWOutcome.response resp
     | NetworkResult.rejected => SWOutcome.rejected)

/-! ### Router claim theorems -/

/-- C5 fails on the code: a same-origin POST is handled with
`event.respondWith(fetch(request))`, so when the fetch rejects the rejection
reaches the page unhandled instead of any synthetic response. -/
theorem claim_C5_counterexample :
    (handleFetchEvent
        { method := "POST", path := "/api/orders", sameOrigin := true, navigate := false }
        { staticCache := [], dynamicCache := [] } NetworkResult.rejected).2 =
      SWOutcome.rejected := by
  decide

/-- C5 amended: the always-some-response guarantee holds for the cache-first
strategy unconditionally, and for the network-first strategy except on a
navigation request with neither the request's path nor `/offline.html` in
any cache — so non-navigation requests, and navigations with either of the
two cached, always get a response; stale-while-revalidate returns the
cached copy whenever the dynamic cache holds one.  The guarantee fails
exactly at the remaining cases, each proved here: a network-first navigation
with nothing cached and a stale-while-revalidate cache miss with a failed
network both resolve with no response, and a same-origin non-GET request
passes the fetch rejection to the page unhandled. -/
theorem claim_C5_amended_response_totality
    (req : SWRequest) (cs : CacheState) (net : NetworkResult) :
    (∃ r, (cacheFirst req cs net).2 = SWOutcome.response r) ∧
    ((req.navigate = false ∨ cachesMatch cs req.path ≠ none ∨
        cachesMatch cs "/offline.html" ≠ none) →
      ∃ r, (networkFirst req cs net).2 = SWOutcome.response r) ∧
    (∀ r, cacheMatch cs.dynamicCache req.path = some r →
      (staleWhileRevalidate req cs net).2 = SWOutcome.response r) ∧
    (cacheMatch cs.dynamicCache req.path = none →
      (staleWhileRevalidate req cs NetworkResult.rejected).2 = SWOutcome.noResponse) ∧
    (req.navigate = true → cachesMatch cs req.path = none →
      cachesMatch cs "/offline.html" = none →
      (networkFirst req cs NetworkResult.rejected).2 = SWOutcome.noResponse) ∧
    (req.sameOrigin = true → req.method ≠ "GET" →
      (handleFetchEvent req cs NetworkResult.rejected).2 = SWOutcome.rejected) := by
  refine ⟨?_, ?_, ?_, ?_, ?_, ?_⟩
  · cases hm : cachesMatch cs req.path with
    | some r => exact ⟨r, by simp [cacheFirst, hm]⟩
    | none =>
        cases net with
        | resolved resp => exact ⟨resp, by simp [cacheFirst, hm]⟩
        | rejected => exact ⟨offlineResp, by simp [cacheFirst, hm]⟩
  · intro h
    cases net with
    | resolved resp => exact ⟨resp, by simp [networkFirst]⟩
    | rejected =>
        cases hm : cachesMatch cs req.path with
        | some r => exact ⟨r, by simp [networkFirst, hm]⟩
        | none =>
            by_cases hnav : req.navigate = true
            · cases ho : cachesMatch cs "/offline.html" with
              | some r => exact ⟨r, by simp [networkFirst, hm, hnav, ho]⟩
              | none =>
                  rcases h with h | h | h
                  · rw [hnav] at h
                    exact absurd h (by simp)
                  · exact absurd hm h
                  · exact absurd ho h
            · rw [Bool.not_eq_true] at hnav
              exact ⟨networkErrorResp, by simp [networkFirst, hm, hnav]⟩
  · intro r hr
    simp [staleWhileRevalidate, hr]
  · intro hm
    simp [staleWhileRevalidate, hm]
  · intro hnav hm ho
    simp [networkFirst, hm, hnav, ho]
  · intro horigin hmethod
    have h2 : (req.method == "GET") = false := beq_eq_false_iff_ne.mpr hmethod
    simp [handleFetchEvent, horigin, h2]

/-- Witness for the amended C5 at concrete inputs, one per conjunct: with
the network down, a static asset gets the synthetic `Offline` response; a
non-navigation `/menu` GET gets the `Network error` response; a `/menu`
navigation with `/offline.html` cached gets that page; a page with a
dynamic-cache copy gets that copy; the same page without one resolves with
no response; a `/menu` navigation with nothing cached resolves with no
response; and a POST's rejection propagates. -/
theorem claim_C5_amended_witness :
    (∃ r, (cacheFirst
        { method := "GET", path := "/static/js/bundle.js", sameOrigin := true, navigate := false }
        { staticCache := [], dynamicCache := [] } NetworkResult.rejected).2 =
      SWOutcome.response r) ∧
    (∃ r, (networkFirst
        { method := "GET", path := "/menu", sameOrigin := true, navigate := false }
        { staticCache := [], dynamicCache := [] } NetworkResult.rejected).2 =
      SWOutcome.response r) ∧
    (∃ r, (networkFirst
        { method := "GET", path := "/menu", sameOrigin := true, navigate := true }
        { staticCache := [("/offline.html", { body := "offline page", status := 200 })],
          dynamicCache := [] } NetworkResult.rejected).2 =
      SWOutcome.response r) ∧
    (staleWhileRevalidate
        { method := "GET", path := "/home", sameOrigin := true, navigate := true }
        { staticCache := [],
          dynamicCache := [("/home", { body := "cached page", status := 200 })] }
        NetworkResult.rejected).2 =
      SWOutcome.response { body := "cached page", status := 200 } ∧
    (staleWhileRevalidate
        { method := "GET", path := "/home", sameOrigin := true, navigate := true }
        { staticCache := [], dynamicCache := [] } NetworkResult.rejected).2 =
      SWOutcome.noResponse ∧
    (networkFirst
        { method := "GET", path := "/menu", sameOrigin := true, navigate := true }
        { staticCache := [], dynamicCache := [] } NetworkResult.rejected).2 =
      SWOutcome.noResponse ∧
    (handleFetchEvent
        { method := "POST", path := "/api/orders", sameOrigin := true, navigate := false }
        { staticCache := [], dynamicCache := [] } NetworkResult.rejected).2 =
      SWOutcome.rejected := by
  have h1 := claim_C5_amended_response_totality
    { method := "GET", path := "/static/js/bundle.js", sameOrigin := true, navigate := false }
    { staticCache := [], dynamicCache := [] } NetworkResult.rejected
  have h2 := claim_C5_amended_response_totality
    { method := "GET", path := "/menu", sameOrigin := true, navigate := false }
    { staticCache := [], dynamicCache := [] } NetworkResult.rejected
  have h2b := claim_C5_amended_response_totality
    { method := "GET", path := "/menu", sameOrigin := true, navigate := true }
    { staticCache := [("/offline.html", { body := "offline page", status := 200 })],
      dynamicCache := [] } NetworkResult.rejected
  have h3 := claim_C5_amended_response_totality
    { method := "GET", path := "/home", sameOrigin := true, navigate := true }
    { staticCache := [],
      dynamicCache := [("/home", { body := "cached page", status := 200 })] }
    NetworkResult.rejected
  have h4 := claim_C5_amended_response_totality
    { method := "GET", path := "/home", sameOrigin := true, navigate := true }
    { staticCache := [], dynamicCache := [] } NetworkResult.rejected
  have h5 := claim_C5_amended_response_totality
    { method := "GET", path := "/menu", sameOrigin := true, navigate := true }
    { staticCache := [], dynamicCache := [] } NetworkResult.rejected
  have h6 := claim_C5_amended_response_totality
    { method := "POST", path := "/api/orders", sameOrigin := true, navigate := false }
    { staticCache := [], dynamicCache := [] } NetworkResult.rejected
  exact ⟨h1.1, h2.2.1 (Or.inl rfl),
    h2b.2.1 (Or.inr (Or.inr (by decide))),
    h3.2.2.1 _ (by decide),
    h4.2.2.2.1 (by decide),
    h5.2.2.2.2.1 rfl (by decide) (by decide),
    h6.2.2.2.2.2 rfl (by decide)⟩

/-- C6 fails on the code at its own intended fallback: for a navigation GET
to `/menu` with the network down and nothing cached, `networkFirst` resolves
with no response at all — `caches.match('/offline.html')` is a truthy
promise, so the `|| new Response('Offline', {status: 503})` fallback never
runs — while the same request in non-navigation mode does get the intended
synthetic 503. -/
theorem claim_C6_navigate_fallback_broken :
    (networkFirst
        { method := "GET", path := "/menu", sameOrigin := true, navigate := true }
        { staticCache := [], dynamicCache := [] } NetworkResult.rejected).2 =
      SWOutcome.noResponse ∧
    (networkFirst
        { method := "GET", path := "/menu", sameOrigin := true, navigate := false }
        { staticCache := [], dynamicCache := [] } NetworkResult.rejected).2 =
      SWOutcome.response networkErrorResp ∧
    (networkFirst
        { method := "GET", path := "/menu", sameOrigin := true, navigate := true }
        { staticCache := [], dynamicCache := [("/menu", { body := "menu", status := 200 })] }
        NetworkResult.rejected).2 =
      SWOutcome.response { body := "menu", status := 200 } := by
  decide
